import Mathlib

/-!
A verification development for the concourse-cfssl resource scripts
(src/lib/concourse.py and src/lib/common.py).

The Python sources are shallowly embedded:

* SHA-256 is implemented executably over `Nat` byte lists (namespace
  `SHA256`), so every checksum the scripts compute is a concrete Lean value.
* Pure helpers of concourse.py (`_hash_string`, `_hash_list`,
  `_get_keypair_checksum`, the decision helpers, the metadata builders)
  become Lean functions of the same shape (namespace `Concourse`).
* The S3-facing lifecycle functions (`root_ca_in`, `leaf_in`,
  `root_ca_out`, ...) become functions over an explicit environment
  (request payload, object store, external-tool results) that return the
  response (or the raised error) together with the list of transfer and
  lifecycle events performed, in program order.
* common.py's `_hash_string`/`hash_list` are embedded separately
  (namespace `CommonPy`) because they differ from the concourse.py copies.

Theorems at the end settle the specified properties against these
embeddings.
-/

set_option maxRecDepth 1000000

namespace SHA256

/-- 2^32, the modulus for 32-bit word arithmetic. -/
def M32 : Nat := 4294967296

/-- Right rotation of a 32-bit word. -/
def rotr (n x : Nat) : Nat :=
  ((x >>> n) ||| (x <<< (32 - n))) % M32

/-- The choice function of the compression rounds. -/
def chF (x y z : Nat) : Nat := (x &&& y) ^^^ ((x ^^^ 4294967295) &&& z)

/-- The majority function of the compression rounds. -/
def majF (x y z : Nat) : Nat := (x &&& y) ^^^ (x &&& z) ^^^ (y &&& z)

/-- The big sigma-0 round function. -/
def bSig0 (x : Nat) : Nat := rotr 2 x ^^^ rotr 13 x ^^^ rotr 22 x

/-- The big sigma-1 round function. -/
def bSig1 (x : Nat) : Nat := rotr 6 x ^^^ rotr 11 x ^^^ rotr 25 x

/-- The small sigma-0 schedule function. -/
def sSig0 (x : Nat) : Nat := rotr 7 x ^^^ rotr 18 x ^^^ (x >>> 3)

/-- The small sigma-1 schedule function. -/
def sSig1 (x : Nat) : Nat := rotr 17 x ^^^ rotr 19 x ^^^ (x >>> 10)

/-- The 64 round constants. -/
def kWords : List Nat :=
  [1116352408, 1899447441, 3049323471,
   3921009573, 961987163, 1508970993,
   2453635748, 2870763221, 3624381080,
   310598401, 607225278, 1426881987,
   1925078388, 2162078206, 2614888103,
   3248222580, 3835390401, 4022224774,
   264347078, 604807628, 770255983,
   1249150122, 1555081692, 1996064986,
   2554220882, 2821834349, 2952996808,
   3210313671, 3336571891, 3584528711,
   113926993, 338241895, 666307205,
   773529912, 1294757372, 1396182291,
   1695183700, 1986661051, 2177026350,
   2456956037, 2730485921, 2820302411,
   3259730800, 3345764771, 3516065817,
   3600352804, 4094571909, 275423344,
   430227734, 506948616, 659060556,
   883997877, 958139571, 1322822218,
   1537002063, 1747873779, 1955562222,
   2024104815, 2227730452, 2361852424,
   2428436474, 2756734187, 3204031479,
   3329325298]

/-- Working state: eight 32-bit words. -/
structure Hash8 where
  a : Nat
  b : Nat
  c : Nat
  d : Nat
  e : Nat
  f : Nat
  g : Nat
  h : Nat
deriving Repr, DecidableEq

/-- Initial hash value. -/
def initHash : Hash8 :=
  { a := 1779033703, b := 3144134277,
    c := 1013904242, d := 2773480762,
    e := 1359893119, f := 2600822924,
    g := 528734635, h := 1541459225 }

/-- One compression round. -/
def round (w k : Nat) (s : Hash8) : Hash8 :=
  let t1 := (s.h + bSig1 s.e + chF s.e s.f s.g + k + w) % M32
  let t2 := (bSig0 s.a + majF s.a s.b s.c) % M32
  { a := (t1 + t2) % M32, b := s.a, c := s.b, d := s.c,
    e := (s.d + t1) % M32, f := s.e, g := s.f, h := s.g }

/-- Run the rounds over the (schedule word, round constant) pairs. -/
def rounds : List (Nat × Nat) → Hash8 → Hash8
  | [], s => s
  | (w, k) :: rest, s => rounds rest (round w k s)

/-- Extend the 16 message words of a block to 64 schedule words. -/
def extendWords : Nat → List Nat → List Nat
  | 0, w => w
  | n + 1, w =>
    let t := w.length
    let x := (sSig1 (w.getD (t - 2) 0) + w.getD (t - 7) 0
                + sSig0 (w.getD (t - 15) 0) + w.getD (t - 16) 0) % M32
    extendWords n (w ++ [x])

/-- Compress one 16-word block into the running hash. -/
def compressBlock (s : Hash8) (block : List Nat) : Hash8 :=
  let ws := extendWords 48 block
  let r := rounds (ws.zip kWords) s
  { a := (s.a + r.a) % M32, b := (s.b + r.b) % M32,
    c := (s.c + r.c) % M32, d := (s.d + r.d) % M32,
    e := (s.e + r.e) % M32, f := (s.f + r.f) % M32,
    g := (s.g + r.g) % M32, h := (s.h + r.h) % M32 }

/-- Big-endian byte expansion of a value into `n` bytes. -/
def toBytesBE : Nat → Nat → List Nat
  | 0, _ => []
  | n + 1, v => toBytesBE n (v / 256) ++ [v % 256]

/-- Group bytes into big-endian 32-bit words, four bytes at a time. -/
def bytesToWords : List Nat → List Nat
  | b0 :: b1 :: b2 :: b3 :: rest =>
    (b0 * 16777216 + b1 * 65536 + b2 * 256 + b3) :: bytesToWords rest
  | _ => []

/-- Split a word list into blocks of 16 words (first argument: block count). -/
def toBlocks : Nat → List Nat → List (List Nat)
  | 0, _ => []
  | n + 1, ws => ws.take 16 :: toBlocks n (ws.drop 16)

/-- Number of zero pad bytes for a message of `len` bytes. -/
def padZeros (len : Nat) : Nat := (119 - len % 64) % 64

/-- The padded message: message, 0x80, zeros, 64-bit big-endian bit length. -/
def pad (msg : List Nat) : List Nat :=
  msg ++ 128 :: List.replicate (padZeros msg.length) 0
      ++ toBytesBE 8 (msg.length * 8)

/-- SHA-256 digest (32 bytes) of a byte list. -/
def sha256Bytes (msg : List Nat) : List Nat :=
  let ws := bytesToWords (pad msg)
  let fin := (toBlocks (ws.length / 16) ws).foldl compressBlock initHash
  toBytesBE 4 fin.a ++ toBytesBE 4 fin.b ++ toBytesBE 4 fin.c
    ++ toBytesBE 4 fin.d ++ toBytesBE 4 fin.e ++ toBytesBE 4 fin.f
    ++ toBytesBE 4 fin.g ++ toBytesBE 4 fin.h

/-- Lowercase hex digit for a value below 16. -/
def hexDigit (n : Nat) : Char :=
  if n < 10 then Char.ofNat (48 + n) else Char.ofNat (87 + n)

/-- Two lowercase hex digits of one byte. -/
def byteToHex (b : Nat) : String :=
  String.mk [hexDigit (b / 16), hexDigit (b % 16)]

/-- Lowercase hex string of a byte list, as `hexdigest()` renders it. -/
def bytesToHex (bs : List Nat) : String :=
  String.join (bs.map byteToHex)

/-- UTF-8 encoding of one code point. -/
def utf8EncodeChar (c : Nat) : List Nat :=
  if c < 128 then [c]
  else if c < 2048 then
    [192 ||| (c >>> 6), 128 ||| (c &&& 63)]
  else if c < 65536 then
    [224 ||| (c >>> 12), 128 ||| ((c >>> 6) &&& 63), 128 ||| (c &&& 63)]
  else
    [240 ||| (c >>> 18), 128 ||| ((c >>> 12) &&& 63),
     128 ||| ((c >>> 6) &&& 63), 128 ||| (c &&& 63)]

/-- UTF-8 encoding of a string as a byte list (Python `s.encode('utf-8')`). -/
def utf8Encode (s : String) : List Nat :=
  (s.data.map (fun c => utf8EncodeChar c.toNat)).flatten

end SHA256

namespace Concourse

/-! Embedding of src/lib/concourse.py.  Definition names follow the Python
names; the few modules-level constants whose Python names end in a suffix
Lean cannot use here are renamed with a trailing marker and annotated. -/

/-- Source constant `CHECKSUM_METADATA_KEY_NAME`. -/
def CHECKSUM_METADATA_KEY_NAME : String := "sha256"

/-- Source constant `ROOT_CA_FILE_PREFIX` (renamed: `ROOT_CA_FILE_STEM`). -/
def ROOT_CA_FILE_STEM : String := "root-ca"

/-- Source constant `ROOT_CA_CERTIFICATE_FILE_NAME`. -/
def ROOT_CA_CERTIFICATE_FILE_NAME : String := ROOT_CA_FILE_STEM ++ ".pem"

/-- Source constant `ROOT_CA_PRIVATE_KEY_FILE_NAME`. -/
def ROOT_CA_PRIVATE_KEY_FILE_NAME : String := ROOT_CA_FILE_STEM ++ "-key.pem"

/-- Source constant `INTERMEDIATE_CA_FILE_PREFIX` (renamed likewise). -/
def INTERMEDIATE_CA_FILE_STEM : String := "intermediate-ca"

/-- Source constant `INTERMEDIATE_CA_CERTIFICATE_FILE_NAME`. -/
def INTERMEDIATE_CA_CERTIFICATE_FILE_NAME : String :=
  INTERMEDIATE_CA_FILE_STEM ++ ".pem"

/-- Source constant `INTERMEDIATE_CA_PRIVATE_KEY_FILE_NAME`. -/
def INTERMEDIATE_CA_PRIVATE_KEY_FILE_NAME : String :=
  INTERMEDIATE_CA_FILE_STEM ++ "-key.pem"

/-- Source constant `CA_SUBDIR`. -/
def CA_SUBDIR : String := "ca"

/-- concourse.py `_hash_string`: SHA-256 hex digest of the UTF-8 encoding of
the argument. -/
def _hash_string (string : String) : String :=
  SHA256.bytesToHex (SHA256.sha256Bytes (SHA256.utf8Encode string))

/-- concourse.py `_hash_list`: hash of `''.join(string_list)`. -/
def _hash_list (string_list : List String) : String :=
  _hash_string (String.join string_list)

/-- concourse.py `_hash_file`: SHA-256 hex digest of the file bytes.  The
Python reads the file in 64 KiB chunks into one running hash, which digests
exactly the whole content; the model takes the content bytes directly. -/
def _hash_file (content : List Nat) : String :=
  SHA256.bytesToHex (SHA256.sha256Bytes content)

/-- concourse.py `_format_s3_key_with_prefix` (renamed: `..._pfx`).  The
Python `if prefix:` test is falsy for both `None` and the empty string. -/
def _format_s3_key_with_pfx (pfx : Option String) (key : String) : String :=
  match pfx with
  | some p => if p == "" then key else p ++ "/" ++ key
  | none => key

/-- An S3 object as the model sees it: the checksum stored under the
`sha256` metadata key (if any) and the object's content bytes.  The Python
case-insensitive metadata scan always resolves to this single value. -/
structure S3Object where
  metadata_sha256 : Option String
  content : List Nat
deriving Repr, DecidableEq

/-- The remote bucket: a partial map from object key to object. -/
def Store : Type := String → Option S3Object

/-- Errors raised by concourse.py, by raise site:
`notFound` is the KeyError of `_get_s3_object_checksum` (and a failed
transfer of a missing object), `integrityMismatch` the ValueError of
`_download_s3_object_to_path`, `versionUnavailable` the ValueError
'requested checksum is unavailable' of the in-functions, `invalidAction`
the ValueError "action must be 'create' or 'renew'" of the out-functions,
and `attributeError` the AttributeError raised when an out-function calls
a helper that lib/cfssl.py does not define. -/
inductive Err
  | notFound
  | integrityMismatch
  | versionUnavailable
  | invalidAction
  | attributeError
deriving Repr, DecidableEq

/-- concourse.py `_get_s3_object`: an object handle is identified by its
bucket key, formed from the configured key prefix and the file name. -/
def _get_s3_object (pfx : Option String) (file_name : String) : String :=
  _format_s3_key_with_pfx pfx file_name

/-- concourse.py `_get_s3_object_checksum`: the value stored under the
(case-insensitively matched) `sha256` metadata key; KeyError if absent. -/
def _get_s3_object_checksum (store : Store) (key : String) :
    Except Err String :=
  match store key with
  | none => Except.error Err.notFound
  | some obj =>
    match obj.metadata_sha256 with
    | none => Except.error Err.notFound
    | some c => Except.ok c

/-- concourse.py `_download_s3_object_to_path`: fetch the object's bytes to
the destination path, then compare their hash with the expected checksum
and raise ValueError on mismatch.  The model returns the downloaded bytes;
the destination path argument only names where they are written. -/
def _download_s3_object_to_path (store : Store) (key : String)
    (expected_checksum : String) (destination_file_path : String) :
    Except Err (List Nat) :=
  match store key with
  | none => Except.error Err.notFound
  | some obj =>
    if expected_checksum == _hash_file obj.content then Except.ok obj.content
    else Except.error Err.integrityMismatch

/-- concourse.py `_upload_s3_object_to_path`: store the bytes tagged with
the given checksum under the `sha256` metadata key. -/
def _upload_s3_object_to_path (checksum : String) (content : List Nat) :
    S3Object :=
  { metadata_sha256 := some checksum, content := content }

/-- Functional update of a store at one key (the effect of an upload). -/
def store_update (store : Store) (key : String) (obj : S3Object) : Store :=
  fun k => if k == key then some obj else store k

/-- A requested or produced version: `{'checksum': ...}`. -/
structure Version where
  checksum : String
deriving Repr, DecidableEq

/-- The literal `'create'`. -/
def action_create : String := "create"

/-- The literal `'renew'`. -/
def action_renew : String := "renew"

/-- The request's `params` object.  `none` in a field models the key being
absent from the JSON object. -/
structure Params where
  action : Option String
  save_certificate : Option Bool
  save_private_key : Option Bool
  save_root_ca_certificate : Option Bool
  save_intermediate_ca_certificate : Option Bool
  save_to_ca_subdir : Option Bool
deriving Repr, DecidableEq

/-- The request's `source` object, restricted to the fields concourse.py
reads outside the storage-session setup: the optional key prefix
(JSON key `prefix`) and, for leaf resources, the required `leaf_name`. -/
structure Source where
  pfx : Option String
  leaf_name : String
deriving Repr, DecidableEq

/-- A request payload.  In requests always carry `version` (the Python
would raise KeyError otherwise); out requests never read it. -/
structure Payload where
  source : Source
  version : Version
  params : Option Params
deriving Repr, DecidableEq

/-- concourse.py `_should_download_certificate`:
`params.get('save_certificate', True) is True`, default true. -/
def _should_download_certificate (p : Payload) : Bool :=
  match p.params with
  | some ps =>
    match ps.save_certificate with
    | some b => b
    | none => true
  | none => true

/-- concourse.py `_should_download_private_key`, default false. -/
def _should_download_private_key (p : Payload) : Bool :=
  match p.params with
  | some ps =>
    match ps.save_private_key with
    | some b => b
    | none => false
  | none => false

/-- concourse.py `_should_download_root_ca_certificate`, default false. -/
def _should_download_root_ca_certificate (p : Payload) : Bool :=
  match p.params with
  | some ps =>
    match ps.save_root_ca_certificate with
    | some b => b
    | none => false
  | none => false

/-- concourse.py `_should_download_intermediate_ca_certificate`,
default false. -/
def _should_download_intermediate_ca_certificate (p : Payload) : Bool :=
  match p.params with
  | some ps =>
    match ps.save_intermediate_ca_certificate with
    | some b => b
    | none => false
  | none => false

/-- concourse.py `_should_save_to_ca_subdir`, default false. -/
def _should_save_to_ca_subdir (p : Payload) : Bool :=
  match p.params with
  | some ps =>
    match ps.save_to_ca_subdir with
    | some b => b
    | none => false
  | none => false

/-- concourse.py `_action_is_create`: true when `params.action` equals
`'create'`, and also when `params` or `params.action` is absent. -/
def _action_is_create (p : Payload) : Bool :=
  match p.params with
  | some ps =>
    match ps.action with
    | some a => a == action_create
    | none => true
  | none => true

/-- concourse.py `_action_is_renew`: true exactly when `params.action` is
present and equals `'renew'`. -/
def _action_is_renew (p : Payload) : Bool :=
  match p.params with
  | some ps =>
    match ps.action with
    | some a => a == action_renew
    | none => false
  | none => false

/-- concourse.py `_get_keypair_checksum`: the bundle version of a
certificate checksum and a private-key checksum. -/
def _get_keypair_checksum
    (certificate_checksum private_key_checksum : String) : String :=
  _hash_list [certificate_checksum, private_key_checksum]

/-- concourse.py `_checksum_exists`: the requested version's checksum
equals the given one. -/
def _checksum_exists (p : Payload) (checksum : String) : Bool :=
  p.version.checksum == checksum

/-- concourse.py `_get_repository_file_path` (`os.path.join` with a
relative file name). -/
def _get_repository_file_path (repository_dir_path file_name : String) :
    String :=
  repository_dir_path ++ "/" ++ file_name

/-- concourse.py `_get_repository_ca_subdir`. -/
def _get_repository_ca_subdir (repository_dir_path : String) : String :=
  repository_dir_path ++ "/" ++ CA_SUBDIR

/-- One `{'name': ..., 'value': ...}` metadata entry. -/
structure MetaEntry where
  name : String
  value : String
deriving Repr, DecidableEq

/-- An in/out response: the version and the accumulated metadata list. -/
structure ResponsePayload where
  version : Version
  metadata : List MetaEntry
deriving Repr, DecidableEq

/-- The `_file_name` metadata name suffix. -/
def suffix_file_name : String := "_file_name"

/-- The `_checksum` metadata name suffix. -/
def suffix_checksum : String := "_checksum"

/-- The `_common_name` metadata name suffix. -/
def suffix_common_name : String := "_common_name"

/-- The `_time_until_expiration` metadata name suffix. -/
def suffix_time_until_expiration : String := "_time_until_expiration"

/-- The `_host_` metadata name suffix. -/
def suffix_host : String := "_host_"

/-- concourse.py `_create_file_metadata`. -/
def _create_file_metadata
    (file_description file_name checksum : String) : List MetaEntry :=
  [{ name := file_description ++ suffix_file_name, value := file_name },
   { name := file_description ++ suffix_checksum, value := checksum }]

/-- concourse.py `_create_expiration_metadata`; the `str(timedelta)`
rendering is taken as an opaque string. -/
def _create_expiration_metadata
    (file_description time_until_expiration : String) : List MetaEntry :=
  [{ name := file_description ++ suffix_time_until_expiration,
     value := time_until_expiration }]

/-- concourse.py `_create_common_name_metadata`. -/
def _create_common_name_metadata
    (file_description common_name : String) : List MetaEntry :=
  [{ name := file_description ++ suffix_common_name, value := common_name }]

/-- The `enumerate` loop of `_create_hosts_metadata`, carrying the next
index. -/
def _create_hosts_metadata_from (file_description : String) :
    Nat → List String → List MetaEntry
  | _, [] => []
  | i, host :: rest =>
    { name := file_description ++ suffix_host ++ Nat.repr i, value := host }
      :: _create_hosts_metadata_from file_description (i + 1) rest

/-- concourse.py `_create_hosts_metadata`: one entry per host, zero-based
indices in input order. -/
def _create_hosts_metadata (file_description : String)
    (hosts : List String) : List MetaEntry :=
  _create_hosts_metadata_from file_description 0 hosts

/-- concourse.py `_create_in_payload`. -/
def _create_in_payload (p : Payload) : ResponsePayload :=
  { version := { checksum := p.version.checksum }, metadata := [] }

/-- concourse.py `_create_out_payload` (the input payload argument is
unused in the source as well). -/
def _create_out_payload (_p : Payload) (checksum : String) :
    ResponsePayload :=
  { version := { checksum := checksum }, metadata := [] }

/-- concourse.py `_update_payload_with_metadata` (functional form of the
in-place `extend`). -/
def _update_payload_with_metadata (p : ResponsePayload)
    (metadata : List MetaEntry) : ResponsePayload :=
  { p with metadata := p.metadata ++ metadata }

/-- The CA levels. -/
inductive CALevel
  | root
  | intermediate
  | leaf
deriving Repr, DecidableEq

/-- Observable effects of one invocation, in program order: artifact
transfers (a download writes the fetched bytes to the destination path
before verifying them; an upload publishes a local file tagged with a
checksum) and invocations of the external cfssl tool (create or renew a
level's key pair / certificate). -/
inductive Event
  | download (key expected_checksum destination_file_path : String)
  | upload (key checksum source_file_path : String)
  | create (level : CALevel)
  | renew (level : CALevel)
deriving Repr, DecidableEq

/-- Results the external cfssl tool would produce during this invocation:
the created key pair for the create branch, the renewed certificate for
the (root) renew branch, and the certificate facts that
`get_certificate_info` extracts for the metadata. -/
structure CfsslResults where
  created_certificate : List Nat
  created_private_key : List Nat
  renewed_certificate : List Nat
  common_name : String
  hosts : List String
  time_until_expiration : String

/-- The environment of one invocation: the parsed stdin payload, the
destination directory argument, the remote bucket and the external-tool
results. -/
structure Env where
  payload : Payload
  repository_dir : String
  store : Store
  cfssl : CfsslResults

/-- The outcome of one invocation: the response payload (or the raised
error) and the events performed, in order. -/
def RunResult : Type := Except Err ResponsePayload × List Event

/-- The metadata role string `root_ca_certificate`. -/
def root_ca_certificate_role : String := "root_ca_certificate"

/-- The metadata role string `root_ca_private_key`. -/
def root_ca_private_key_role : String := "root_ca_private_key"

/-- The metadata role string `intermediate_ca_certificate`. -/
def intermediate_ca_certificate_role : String := "intermediate_ca_certificate"

/-- The metadata role string `intermediate_ca_private_key`. -/
def intermediate_ca_private_key_role : String := "intermediate_ca_private_key"

/-- The metadata role string `leaf_certificate`. -/
def leaf_certificate_role : String := "leaf_certificate"

/-- The metadata role string `leaf_private_key`. -/
def leaf_private_key_role : String := "leaf_private_key"

/-- The leaf certificate file name, from the source's `leaf_name`. -/
def leaf_certificate_file_name (leaf_name : String) : String :=
  leaf_name ++ ".pem"

/-- The leaf private key file name, from the source's `leaf_name`. -/
def leaf_private_key_file_name (leaf_name : String) : String :=
  leaf_name ++ "-key.pem"

/-- Bucket key of the root CA certificate object. -/
def root_cert_key (env : Env) : String :=
  _get_s3_object env.payload.source.pfx ROOT_CA_CERTIFICATE_FILE_NAME

/-- Bucket key of the root CA private key object. -/
def root_key_key (env : Env) : String :=
  _get_s3_object env.payload.source.pfx ROOT_CA_PRIVATE_KEY_FILE_NAME

/-- Bucket key of the intermediate CA certificate object. -/
def inter_cert_key (env : Env) : String :=
  _get_s3_object env.payload.source.pfx INTERMEDIATE_CA_CERTIFICATE_FILE_NAME

/-- Bucket key of the intermediate CA private key object. -/
def inter_key_key (env : Env) : String :=
  _get_s3_object env.payload.source.pfx INTERMEDIATE_CA_PRIVATE_KEY_FILE_NAME

/-- Bucket key of the leaf certificate object. -/
def leaf_cert_key (env : Env) : String :=
  _get_s3_object env.payload.source.pfx
    (leaf_certificate_file_name env.payload.source.leaf_name)

/-- Bucket key of the leaf private key object. -/
def leaf_key_key (env : Env) : String :=
  _get_s3_object env.payload.source.pfx
    (leaf_private_key_file_name env.payload.source.leaf_name)

/-- Local path of the root CA certificate in the repository directory. -/
def root_cert_path (env : Env) : String :=
  _get_repository_file_path env.repository_dir ROOT_CA_CERTIFICATE_FILE_NAME

/-- Local path of the root CA private key in the repository directory. -/
def root_key_path (env : Env) : String :=
  _get_repository_file_path env.repository_dir ROOT_CA_PRIVATE_KEY_FILE_NAME

/-- Local path of the intermediate CA certificate. -/
def inter_cert_path (env : Env) : String :=
  _get_repository_file_path env.repository_dir
    INTERMEDIATE_CA_CERTIFICATE_FILE_NAME

/-- Local path of the intermediate CA private key. -/
def inter_key_path (env : Env) : String :=
  _get_repository_file_path env.repository_dir
    INTERMEDIATE_CA_PRIVATE_KEY_FILE_NAME

/-- Local path of the leaf certificate. -/
def leaf_cert_path (env : Env) : String :=
  _get_repository_file_path env.repository_dir
    (leaf_certificate_file_name env.payload.source.leaf_name)

/-- Local path of the leaf private key. -/
def leaf_key_path (env : Env) : String :=
  _get_repository_file_path env.repository_dir
    (leaf_private_key_file_name env.payload.source.leaf_name)

/-- `root_ca_in`, certificate branch (source lines 562-576): when
`save_certificate` holds, download and verify the certificate, then add
its file metadata. -/
def root_ca_in_certificate_step (env : Env) (certCk : String)
    (out : ResponsePayload) (tr : List Event) : RunResult :=
  if _should_download_certificate env.payload then
    match _download_s3_object_to_path env.store (root_cert_key env) certCk
        (root_cert_path env) with
    | Except.error e =>
      (Except.error e,
       tr ++ [Event.download (root_cert_key env) certCk (root_cert_path env)])
    | Except.ok _ =>
      (Except.ok (_update_payload_with_metadata out
         (_create_file_metadata root_ca_certificate_role
            ROOT_CA_CERTIFICATE_FILE_NAME certCk)),
       tr ++ [Event.download (root_cert_key env) certCk (root_cert_path env)])
  else (Except.ok out, tr)

/-- `root_ca_in`, private key branch (source lines 577-591). -/
def root_ca_in_private_key_step (env : Env) (keyCk : String)
    (out : ResponsePayload) (tr : List Event) : RunResult :=
  if _should_download_private_key env.payload then
    match _download_s3_object_to_path env.store (root_key_key env) keyCk
        (root_key_path env) with
    | Except.error e =>
      (Except.error e,
       tr ++ [Event.download (root_key_key env) keyCk (root_key_path env)])
    | Except.ok _ =>
      (Except.ok (_update_payload_with_metadata out
         (_create_file_metadata root_ca_private_key_role
            ROOT_CA_PRIVATE_KEY_FILE_NAME keyCk)),
       tr ++ [Event.download (root_key_key env) keyCk (root_key_path env)])
  else (Except.ok out, tr)

/-- concourse.py `root_ca_in` (source lines 508-597): fetch the two stored
checksums, recompute the bundle checksum, and only when it equals the
requested version download the artifacts selected by the params flags;
otherwise raise 'requested checksum is unavailable'. -/
def root_ca_in (env : Env) : RunResult :=
  match _get_s3_object_checksum env.store (root_cert_key env) with
  | Except.error e => (Except.error e, [])
  | Except.ok certCk =>
  match _get_s3_object_checksum env.store (root_key_key env) with
  | Except.error e => (Except.error e, [])
  | Except.ok keyCk =>
  let root_ca_checksum := _get_keypair_checksum certCk keyCk
  let out0 := _create_in_payload env.payload
  if _checksum_exists env.payload root_ca_checksum then
    match root_ca_in_certificate_step env certCk out0 [] with
    | (Except.error e, tr) => (Except.error e, tr)
    | (Except.ok out1, tr1) => root_ca_in_private_key_step env keyCk out1 tr1
  else
    (Except.error Err.versionUnavailable, [])

/-- `intermediate_ca_in`, certificate branch (source lines 911-925). -/
def intermediate_ca_in_certificate_step (env : Env) (certCk : String)
    (out : ResponsePayload) (tr : List Event) : RunResult :=
  if _should_download_certificate env.payload then
    match _download_s3_object_to_path env.store (inter_cert_key env) certCk
        (inter_cert_path env) with
    | Except.error e =>
      (Except.error e,
       tr ++ [Event.download (inter_cert_key env) certCk
                (inter_cert_path env)])
    | Except.ok _ =>
      (Except.ok (_update_payload_with_metadata out
         (_create_file_metadata intermediate_ca_certificate_role
            INTERMEDIATE_CA_CERTIFICATE_FILE_NAME certCk)),
       tr ++ [Event.download (inter_cert_key env) certCk
                (inter_cert_path env)])
  else (Except.ok out, tr)

/-- `intermediate_ca_in`, private key branch (source lines 926-940). -/
def intermediate_ca_in_private_key_step (env : Env) (keyCk : String)
    (out : ResponsePayload) (tr : List Event) : RunResult :=
  if _should_download_private_key env.payload then
    match _download_s3_object_to_path env.store (inter_key_key env) keyCk
        (inter_key_path env) with
    | Except.error e =>
      (Except.error e,
       tr ++ [Event.download (inter_key_key env) keyCk (inter_key_path env)])
    | Except.ok _ =>
      (Except.ok (_update_payload_with_metadata out
         (_create_file_metadata intermediate_ca_private_key_role
            INTERMEDIATE_CA_PRIVATE_KEY_FILE_NAME keyCk)),
       tr ++ [Event.download (inter_key_key env) keyCk (inter_key_path env)])
  else (Except.ok out, tr)

/-- concourse.py `intermediate_ca_in` (source lines 855-946), same shape
as `root_ca_in` over the intermediate artifacts. -/
def intermediate_ca_in (env : Env) : RunResult :=
  match _get_s3_object_checksum env.store (inter_cert_key env) with
  | Except.error e => (Except.error e, [])
  | Except.ok certCk =>
  match _get_s3_object_checksum env.store (inter_key_key env) with
  | Except.error e => (Except.error e, [])
  | Except.ok keyCk =>
  let intermediate_ca_checksum := _get_keypair_checksum certCk keyCk
  let out0 := _create_in_payload env.payload
  if _checksum_exists env.payload intermediate_ca_checksum then
    match intermediate_ca_in_certificate_step env certCk out0 [] with
    | (Except.error e, tr) => (Except.error e, tr)
    | (Except.ok out1, tr1) =>
      intermediate_ca_in_private_key_step env keyCk out1 tr1
  else
    (Except.error Err.versionUnavailable, [])

/-- `leaf_in`, certificate branch (source lines 1329-1343). -/
def leaf_in_certificate_step (env : Env) (certCk : String)
    (out : ResponsePayload) (tr : List Event) : RunResult :=
  if _should_download_certificate env.payload then
    match _download_s3_object_to_path env.store (leaf_cert_key env) certCk
        (leaf_cert_path env) with
    | Except.error e =>
      (Except.error e,
       tr ++ [Event.download (leaf_cert_key env) certCk (leaf_cert_path env)])
    | Except.ok _ =>
      (Except.ok (_update_payload_with_metadata out
         (_create_file_metadata leaf_certificate_role
            (leaf_certificate_file_name env.payload.source.leaf_name) certCk)),
       tr ++ [Event.download (leaf_cert_key env) certCk (leaf_cert_path env)])
  else (Except.ok out, tr)

/-- `leaf_in`, private key branch (source lines 1344-1358). -/
def leaf_in_private_key_step (env : Env) (keyCk : String)
    (out : ResponsePayload) (tr : List Event) : RunResult :=
  if _should_download_private_key env.payload then
    match _download_s3_object_to_path env.store (leaf_key_key env) keyCk
        (leaf_key_path env) with
    | Except.error e =>
      (Except.error e,
       tr ++ [Event.download (leaf_key_key env) keyCk (leaf_key_path env)])
    | Except.ok _ =>
      (Except.ok (_update_payload_with_metadata out
         (_create_file_metadata leaf_private_key_role
            (leaf_private_key_file_name env.payload.source.leaf_name) keyCk)),
       tr ++ [Event.download (leaf_key_key env) keyCk (leaf_key_path env)])
  else (Except.ok out, tr)

/-- `leaf_in`, root CA certificate branch (source lines 1359-1399): fetch
the root certificate object's checksum, pick the destination directory
(the `ca` sub-directory when `save_to_ca_subdir` holds), download and
verify, and add root certificate file metadata. -/
def leaf_in_root_ca_step (env : Env)
    (out : ResponsePayload) (tr : List Event) : RunResult :=
  if _should_download_root_ca_certificate env.payload then
    match _get_s3_object_checksum env.store
        (_get_s3_object env.payload.source.pfx
           ROOT_CA_CERTIFICATE_FILE_NAME) with
    | Except.error e => (Except.error e, tr)
    | Except.ok ck =>
      let ca_destination_dir :=
        if _should_save_to_ca_subdir env.payload then
          _get_repository_ca_subdir env.repository_dir
        else env.repository_dir
      let path :=
        _get_repository_file_path ca_destination_dir
          ROOT_CA_CERTIFICATE_FILE_NAME
      match _download_s3_object_to_path env.store
          (_get_s3_object env.payload.source.pfx
             ROOT_CA_CERTIFICATE_FILE_NAME) ck path with
      | Except.error e =>
        (Except.error e,
         tr ++ [Event.download
                  (_get_s3_object env.payload.source.pfx
                     ROOT_CA_CERTIFICATE_FILE_NAME) ck path])
      | Except.ok _ =>
        (Except.ok (_update_payload_with_metadata out
           (_create_file_metadata root_ca_certificate_role
              ROOT_CA_CERTIFICATE_FILE_NAME ck)),
         tr ++ [Event.download
                  (_get_s3_object env.payload.source.pfx
                     ROOT_CA_CERTIFICATE_FILE_NAME) ck path])
  else (Except.ok out, tr)

/-- `leaf_in`, intermediate CA certificate branch (source lines
1400-1440).  The source really builds this branch's s3 object from
`ROOT_CA_CERTIFICATE_FILE_NAME` (line 1406), verifies against that
object's stored checksum, and forms the destination path from
`ROOT_CA_CERTIFICATE_FILE_NAME` again (line 1425), while the metadata
entries use the intermediate role and
`INTERMEDIATE_CA_CERTIFICATE_FILE_NAME`; the model reproduces that
verbatim. -/
def leaf_in_intermediate_ca_step (env : Env)
    (out : ResponsePayload) (tr : List Event) : RunResult :=
  if _should_download_intermediate_ca_certificate env.payload then
    match _get_s3_object_checksum env.store
        (_get_s3_object env.payload.source.pfx
           ROOT_CA_CERTIFICATE_FILE_NAME) with
    | Except.error e => (Except.error e, tr)
    | Except.ok ck =>
      let ca_destination_dir :=
        if _should_save_to_ca_subdir env.payload then
          _get_repository_ca_subdir env.repository_dir
        else env.repository_dir
      let path :=
        _get_repository_file_path ca_destination_dir
          ROOT_CA_CERTIFICATE_FILE_NAME
      match _download_s3_object_to_path env.store
          (_get_s3_object env.payload.source.pfx
             ROOT_CA_CERTIFICATE_FILE_NAME) ck path with
      | Except.error e =>
        (Except.error e,
         tr ++ [Event.download
                  (_get_s3_object env.payload.source.pfx
                     ROOT_CA_CERTIFICATE_FILE_NAME) ck path])
      | Except.ok _ =>
        (Except.ok (_update_payload_with_metadata out
           (_create_file_metadata intermediate_ca_certificate_role
              INTERMEDIATE_CA_CERTIFICATE_FILE_NAME ck)),
         tr ++ [Event.download
                  (_get_s3_object env.payload.source.pfx
                     ROOT_CA_CERTIFICATE_FILE_NAME) ck path])
  else (Except.ok out, tr)

/-- concourse.py `leaf_in` (source lines 1268-1447): fetch the two leaf
checksums, recompute the bundle checksum, and when it equals the
requested version run the four optional download branches in order;
otherwise raise 'requested checksum is unavailable'. -/
def leaf_in (env : Env) : RunResult :=
  match _get_s3_object_checksum env.store (leaf_cert_key env) with
  | Except.error e => (Except.error e, [])
  | Except.ok certCk =>
  match _get_s3_object_checksum env.store (leaf_key_key env) with
  | Except.error e => (Except.error e, [])
  | Except.ok keyCk =>
  let leaf_checksum := _get_keypair_checksum certCk keyCk
  let out0 := _create_in_payload env.payload
  if _checksum_exists env.payload leaf_checksum then
    match leaf_in_certificate_step env certCk out0 [] with
    | (Except.error e, tr) => (Except.error e, tr)
    | (Except.ok out1, tr1) =>
    match leaf_in_private_key_step env keyCk out1 tr1 with
    | (Except.error e, tr) => (Except.error e, tr)
    | (Except.ok out2, tr2) =>
    match leaf_in_root_ca_step env out2 tr2 with
    | (Except.error e, tr) => (Except.error e, tr)
    | (Except.ok out3, tr3) => leaf_in_intermediate_ca_step env out3 tr3
  else
    (Except.error Err.versionUnavailable, [])

/-- The existing-bundle transfer sequence that the out-functions repeat
(root_ca_out lines 640-659, intermediate_ca_out lines 971-1006 and
1040-1059, leaf_out lines 1472-1509 and 1546-1565): fetch the two stored
checksums, then download and verify first the certificate and then the
private key, failing fast. -/
def download_keypair (store : Store) (certKey keyKey certPath keyPath : String) :
    Except Err (List Nat × List Nat) × List Event :=
  match _get_s3_object_checksum store certKey with
  | Except.error e => (Except.error e, [])
  | Except.ok c =>
  match _get_s3_object_checksum store keyKey with
  | Except.error e => (Except.error e, [])
  | Except.ok k =>
  match _download_s3_object_to_path store certKey c certPath with
  | Except.error e =>
    (Except.error e, [Event.download certKey c certPath])
  | Except.ok certBytes =>
  match _download_s3_object_to_path store keyKey k keyPath with
  | Except.error e =>
    (Except.error e,
     [Event.download certKey c certPath, Event.download keyKey k keyPath])
  | Except.ok keyBytes =>
    (Except.ok (certBytes, keyBytes),
     [Event.download certKey c certPath, Event.download keyKey k keyPath])

/-- The tail of `root_ca_out` after the action branch (source lines
693-799): hash the local bundle files, compute the bundle checksum,
inspect the certificate, upload both artifacts tagged with their
checksums, and assemble the out response. -/
def root_ca_out_finish (env : Env) (certContent keyContent : List Nat)
    (tr : List Event) : RunResult :=
  let certCk := _hash_file certContent
  let keyCk := _hash_file keyContent
  let root_ca_checksum := _get_keypair_checksum certCk keyCk
  let tr2 := tr ++
    [Event.upload (root_cert_key env) certCk (root_cert_path env),
     Event.upload (root_key_key env) keyCk (root_key_path env)]
  let out0 := _create_out_payload env.payload root_ca_checksum
  let out1 := _update_payload_with_metadata out0
    (_create_file_metadata root_ca_certificate_role
       ROOT_CA_CERTIFICATE_FILE_NAME certCk)
  let out2 := _update_payload_with_metadata out1
    (_create_file_metadata root_ca_private_key_role
       ROOT_CA_PRIVATE_KEY_FILE_NAME keyCk)
  let out3 := _update_payload_with_metadata out2
    (_create_common_name_metadata root_ca_certificate_role
       env.cfssl.common_name)
  let out4 := _update_payload_with_metadata out3
    (_create_expiration_metadata root_ca_certificate_role
       env.cfssl.time_until_expiration)
  (Except.ok out4, tr2)

/-- concourse.py `root_ca_out` (source lines 603-799).  The create branch
invokes `lib.cfssl.create_root_ca`, which writes a fresh key pair into
the repository directory.  The renew branch downloads and verifies the
existing bundle, inspects the downloaded certificate (diagnostics only)
and then invokes `lib.cfssl.renew_root_certificate`, which reissues the
certificate over the unchanged downloaded private key.  Any other action
raises "action must be 'create' or 'renew'". -/
def root_ca_out (env : Env) : RunResult :=
  if _action_is_create env.payload then
    root_ca_out_finish env env.cfssl.created_certificate
      env.cfssl.created_private_key [Event.create CALevel.root]
  else if _action_is_renew env.payload then
    match download_keypair env.store (root_cert_key env) (root_key_key env)
        (root_cert_path env) (root_key_path env) with
    | (Except.error e, tr) => (Except.error e, tr)
    | (Except.ok bundle, tr) =>
      root_ca_out_finish env env.cfssl.renewed_certificate bundle.2
        (tr ++ [Event.renew CALevel.root])
  else (Except.error Err.invalidAction, [])

/-- The tail of `intermediate_ca_out` after the action branch (source
lines 1098-1207), shaped like `root_ca_out_finish` over the intermediate
artifacts. -/
def intermediate_ca_out_finish (env : Env)
    (certContent keyContent : List Nat) (tr : List Event) : RunResult :=
  let certCk := _hash_file certContent
  let keyCk := _hash_file keyContent
  let intermediate_ca_checksum := _get_keypair_checksum certCk keyCk
  let tr2 := tr ++
    [Event.upload (inter_cert_key env) certCk (inter_cert_path env),
     Event.upload (inter_key_key env) keyCk (inter_key_path env)]
  let out0 := _create_out_payload env.payload intermediate_ca_checksum
  let out1 := _update_payload_with_metadata out0
    (_create_file_metadata intermediate_ca_certificate_role
       INTERMEDIATE_CA_CERTIFICATE_FILE_NAME certCk)
  let out2 := _update_payload_with_metadata out1
    (_create_file_metadata intermediate_ca_private_key_role
       INTERMEDIATE_CA_PRIVATE_KEY_FILE_NAME keyCk)
  let out3 := _update_payload_with_metadata out2
    (_create_common_name_metadata intermediate_ca_certificate_role
       env.cfssl.common_name)
  let out4 := _update_payload_with_metadata out3
    (_create_expiration_metadata intermediate_ca_certificate_role
       env.cfssl.time_until_expiration)
  (Except.ok out4, tr2)

/-- concourse.py `intermediate_ca_out` (source lines 952-1207).  Before
the action branch it downloads and verifies the root bundle into the
repository directory (the signing dependency).  The create branch
invokes `lib.cfssl.create_intermediate_ca`; the renew branch downloads
the existing intermediate bundle and then evaluates
`lib.cfssl.renew_intermediate_certificate`, an attribute lib/cfssl.py
does not define, so it raises AttributeError at that point and no
renewal is ever invoked.  Any other action raises
"action must be 'create' or 'renew'". -/
def intermediate_ca_out (env : Env) : RunResult :=
  match download_keypair env.store (root_cert_key env) (root_key_key env)
      (root_cert_path env) (root_key_path env) with
  | (Except.error e, tr) => (Except.error e, tr)
  | (Except.ok _, preTr) =>
  if _action_is_create env.payload then
    intermediate_ca_out_finish env env.cfssl.created_certificate
      env.cfssl.created_private_key
      (preTr ++ [Event.create CALevel.intermediate])
  else if _action_is_renew env.payload then
    match download_keypair env.store (inter_cert_key env) (inter_key_key env)
        (inter_cert_path env) (inter_key_path env) with
    | (Except.error e, tr) => (Except.error e, preTr ++ tr)
    | (Except.ok _, tr) => (Except.error Err.attributeError, preTr ++ tr)
  else (Except.error Err.invalidAction, preTr)

/-- Metadata assembled by `leaf_out` (source lines 1674-1727): leaf
certificate file entries, leaf private key file entries, common name,
host entries when the certificate has hosts, expiration. -/
def leaf_out_metadata (leaf_name certCk keyCk common_name : String)
    (hosts : List String) (time_until_expiration : String) :
    List MetaEntry :=
  _create_file_metadata leaf_certificate_role
      (leaf_certificate_file_name leaf_name) certCk
    ++ _create_file_metadata leaf_private_key_role
        (leaf_private_key_file_name leaf_name) keyCk
    ++ _create_common_name_metadata leaf_certificate_role common_name
    ++ (if hosts.isEmpty then []
        else _create_hosts_metadata leaf_certificate_role hosts)
    ++ _create_expiration_metadata leaf_certificate_role
        time_until_expiration

/-- The tail of `leaf_out` after the action branch (source lines
1604-1730): hash the local leaf files, compute the bundle checksum,
inspect the certificate, upload both artifacts and assemble the out
response with `leaf_out_metadata`. -/
def leaf_out_finish (env : Env) (certContent keyContent : List Nat)
    (tr : List Event) : RunResult :=
  let certCk := _hash_file certContent
  let keyCk := _hash_file keyContent
  let leaf_checksum := _get_keypair_checksum certCk keyCk
  let tr2 := tr ++
    [Event.upload (leaf_cert_key env) certCk (leaf_cert_path env),
     Event.upload (leaf_key_key env) keyCk (leaf_key_path env)]
  let out0 := _create_out_payload env.payload leaf_checksum
  (Except.ok (_update_payload_with_metadata out0
     (leaf_out_metadata env.payload.source.leaf_name certCk keyCk
        env.cfssl.common_name env.cfssl.hosts
        env.cfssl.time_until_expiration)),
   tr2)

/-- concourse.py `leaf_out` (source lines 1453-1730).  Before the action
branch it downloads and verifies the intermediate bundle (the signing
dependency).  The create branch invokes `lib.cfssl.create_leaf`; the
renew branch downloads the existing leaf bundle and then evaluates
`lib.cfssl.renew_leaf_certificate`, an attribute lib/cfssl.py does not
define, so it raises AttributeError at that point and no renewal is
ever invoked.  Any other action raises
"action must be 'create' or 'renew'". -/
def leaf_out (env : Env) : RunResult :=
  match download_keypair env.store (inter_cert_key env) (inter_key_key env)
      (inter_cert_path env) (inter_key_path env) with
  | (Except.error e, tr) => (Except.error e, tr)
  | (Except.ok _, preTr) =>
  if _action_is_create env.payload then
    leaf_out_finish env env.cfssl.created_certificate
      env.cfssl.created_private_key (preTr ++ [Event.create CALevel.leaf])
  else if _action_is_renew env.payload then
    match download_keypair env.store (leaf_cert_key env) (leaf_key_key env)
        (leaf_cert_path env) (leaf_key_path env) with
    | (Except.error e, tr) => (Except.error e, preTr ++ tr)
    | (Except.ok _, tr) => (Except.error Err.attributeError, preTr ++ tr)
  else (Except.error Err.invalidAction, preTr)

/-- Whether an event mutates state beyond the repository directory or
invokes the external tool: uploads and create/renew invocations. -/
def is_mutation : Event → Bool
  | Event.download _ _ _ => false
  | Event.upload _ _ _ => true
  | Event.create _ => true
  | Event.renew _ => true

/-- Whether an event is a renewal invocation. -/
def is_renew_event : Event → Bool
  | Event.renew _ => true
  | _ => false

/-- Whether a run outcome is an error. -/
def is_error : Except Err ResponsePayload → Bool
  | Except.error _ => true
  | Except.ok _ => false

/-- Whether a bundle transfer succeeded. -/
def keypair_ok (r : Except Err (List Nat × List Nat) × List Event) : Bool :=
  match r.1 with
  | Except.ok _ => true
  | Except.error _ => false

/-! Concrete sample data used to evaluate the models on closed inputs. -/

/-- Sample leaf name. -/
def demo_leaf_name : String := "web"

/-- Sample destination directory argument. -/
def demo_dir : String := "dest"

/-- Sample source configuration: no key prefix. -/
def demo_source : Source := { pfx := none, leaf_name := demo_leaf_name }

/-- An object stored together with the checksum of its own content. -/
def mkStoreObj (content : List Nat) : S3Object :=
  { metadata_sha256 := some (_hash_file content), content := content }

/-- Sample bucket holding consistent artifacts for all three levels. -/
def demo_store : Store := fun k =>
  if k == ROOT_CA_CERTIFICATE_FILE_NAME then some (mkStoreObj [1])
  else if k == ROOT_CA_PRIVATE_KEY_FILE_NAME then some (mkStoreObj [2])
  else if k == INTERMEDIATE_CA_CERTIFICATE_FILE_NAME then
    some (mkStoreObj [3])
  else if k == INTERMEDIATE_CA_PRIVATE_KEY_FILE_NAME then
    some (mkStoreObj [4])
  else if k == leaf_certificate_file_name demo_leaf_name then
    some (mkStoreObj [5])
  else if k == leaf_private_key_file_name demo_leaf_name then
    some (mkStoreObj [6])
  else none

/-- Sample host `a.example.com`. -/
def host_a : String := "a.example.com"

/-- Sample host `b.example.com`. -/
def host_b : String := "b.example.com"

/-- Sample host list. -/
def demo_hosts : List String := [host_a, host_b]

/-- Sample external-tool results. -/
def demo_cfssl : CfsslResults :=
  { created_certificate := [7], created_private_key := [8],
    renewed_certificate := [9], common_name := "example.com",
    hosts := demo_hosts, time_until_expiration := "364 days, 23:59:59" }

/-- A requested version checksum that matches no stored bundle. -/
def wrong_checksum : String := "0000"

/-- Sample in request asking for an unavailable version. -/
def c3_env : Env :=
  { payload := { source := demo_source,
                 version := { checksum := wrong_checksum },
                 params := none },
    repository_dir := demo_dir, store := demo_store, cfssl := demo_cfssl }

/-- Params of a leaf in request that decline the leaf files and ask only
for the intermediate CA certificate. -/
def c2_params : Params :=
  { action := none, save_certificate := some false,
    save_private_key := none, save_root_ca_certificate := none,
    save_intermediate_ca_certificate := some true,
    save_to_ca_subdir := none }

/-- Sample leaf in request with a matching version and `c2_params`. -/
def c2_env : Env :=
  { payload := { source := demo_source,
                 version := { checksum :=
                   _get_keypair_checksum (_hash_file [5]) (_hash_file [6]) },
                 params := c2_params },
    repository_dir := demo_dir, store := demo_store, cfssl := demo_cfssl }

/-- Params carrying only `action := renew`. -/
def renew_params : Params :=
  { action := some action_renew, save_certificate := none,
    save_private_key := none, save_root_ca_certificate := none,
    save_intermediate_ca_certificate := none, save_to_ca_subdir := none }

/-- Sample out request with action `renew`. -/
def c6_env : Env :=
  { payload := { source := demo_source,
                 version := { checksum := wrong_checksum },
                 params := renew_params },
    repository_dir := demo_dir, store := demo_store, cfssl := demo_cfssl }

/-- An action value that is neither `create` nor `renew`. -/
def c7_action : String := "destroy"

/-- Params carrying only the invalid action. -/
def c7_params : Params :=
  { action := some c7_action, save_certificate := none,
    save_private_key := none, save_root_ca_certificate := none,
    save_intermediate_ca_certificate := none, save_to_ca_subdir := none }

/-- Sample out request with the invalid action. -/
def c7_env : Env :=
  { payload := { source := demo_source,
                 version := { checksum := wrong_checksum },
                 params := c7_params },
    repository_dir := demo_dir, store := demo_store, cfssl := demo_cfssl }

/-- Sample out request with no params object at all. -/
def c10_env : Env :=
  { payload := { source := demo_source,
                 version := { checksum := wrong_checksum },
                 params := none },
    repository_dir := demo_dir, store := demo_store, cfssl := demo_cfssl }

/-- 64 repetitions of the hex character `a`. -/
def hex_a64 : String := String.mk (List.replicate 64 (Char.ofNat 97))

/-- 64 repetitions of the hex character `b`. -/
def hex_b64 : String := String.mk (List.replicate 64 (Char.ofNat 98))

/-- The hex string `aa`. -/
def hex_aa : String := "aa"

/-- The hex string `aaaa`. -/
def hex_aaaa : String := "aaaa"

/-- The hex string `ab`. -/
def hex_ab : String := "ab"

/-- The hex string `cd`. -/
def hex_cd : String := "cd"

/-- Sample content for the transfer round trip. -/
def c5_content : List Nat := [10, 11, 12]

/-- Sample bucket key for the transfer round trip. -/
def c5_key : String := "object.pem"

/-- Sample destination path for the transfer round trip. -/
def c5_dest : String := "dest/object.pem"

/-- A stored object whose bytes do not hash to its recorded checksum. -/
def c5_bad_obj : S3Object :=
  { metadata_sha256 := some (_hash_file c5_content), content := [10, 11] }

/-- A bucket holding only the corrupted object. -/
def c5_bad_store : Store := fun k =>
  if k == c5_key then some c5_bad_obj else none

/-- The empty bucket. -/
def empty_store : Store := fun _ => none

end Concourse

namespace CommonPy

/-! Embedding of the hash helpers of src/lib/common.py, which differ from
the concourse.py copies. -/

/-- The literal `'utf-8'`. -/
def utf8_literal : String := "utf-8"

/-- common.py `_hash_string`:
`hashlib.sha256(str.encode('utf-8')).hexdigest()`.  The expression
`str.encode('utf-8')` calls the unbound `str.encode` with the literal
`'utf-8'` as the receiver, so it encodes the constant string `'utf-8'`
and ignores the `string` argument entirely. -/
def _hash_string (string : String) : String :=
  SHA256.bytesToHex (SHA256.sha256Bytes (SHA256.utf8Encode utf8_literal))

/-- common.py `hash_list`: `_hash_string(''.join(string_list))`. -/
def hash_list (string_list : List String) : String :=
  _hash_string (String.join string_list)

end CommonPy

deriving instance DecidableEq for Except

open Concourse

/-- Sanity check of the hash model against the standard test vector for
the empty message. -/
theorem sha256_empty_vector :
    SHA256.bytesToHex (SHA256.sha256Bytes (SHA256.utf8Encode (String.mk [])))
      = "e3b0c44298fc1c149afbf4c8996fb92427ae41e4649b934ca495991b7852b855" := by
  decide

/-- Sanity check of the hash model against the standard test vector for
the message `abc`. -/
theorem sha256_abc_vector :
    Concourse._hash_string (String.mk [Char.ofNat 97, Char.ofNat 98, Char.ofNat 99])
      = "ba7816bf8f01cfea414140de5dae2223b00361a396177a9cb410ff61f20015ad" := by
  decide

/-- `''.join` of a two-element list is plain concatenation. -/
theorem string_join_pair (a b : String) : String.join [a, b] = a ++ b := by
  simp [String.join]

/-- Concatenating two distinct strings of equal length in the two orders
yields distinct strings. -/
theorem string_append_swap_ne (a b : String)
    (hlen : a.length = b.length) (hne : a ≠ b) : a ++ b ≠ b ++ a := by
  intro h
  apply hne
  have hd : a.data ++ b.data = b.data ++ a.data := by
    have h2 := congrArg String.data h
    simpa using h2
  have hl : a.data.length = b.data.length := hlen
  exact String.ext (List.append_inj hd hl).1

/-- Claim C1: for every pair of checksum hex strings, the bundle version
computed by `_get_keypair_checksum` is the SHA-256 hex digest of the
UTF-8 encoding of certificate checksum followed by key checksum with no
separator; in particular on the 64-character checksums of all `a`s and
all `b`s it equals the independently precomputed digest of the
128-character concatenation. -/
theorem keypair_checksum_is_sha256_of_concat :
    (∀ c k : String,
        _get_keypair_checksum c k
          = SHA256.bytesToHex (SHA256.sha256Bytes (SHA256.utf8Encode (c ++ k))))
    ∧ _get_keypair_checksum hex_a64 hex_b64
        = "fa0dafbf43f1f551e536353e9d1a942a8e86e41a0b58dfeaf264ef217f6b862a" := by
  constructor
  · intro c k
    unfold _get_keypair_checksum _hash_list _hash_string
    rw [string_join_pair]
  · decide

/-- Claim C4, counterexample: the claim quantifies over all hex strings,
but for `a = "aa"` and `b = "aaaa"` the two concatenations coincide
(`"aaaaaa"`), so the two bundle versions are equal although `a ≠ b`. -/
theorem keypair_swap_counterexample :
    hex_aa ≠ hex_aaaa
    ∧ _get_keypair_checksum hex_aa hex_aaaa
        = _get_keypair_checksum hex_aaaa hex_aa := by
  constructor
  · decide
  · decide

/-- Claim C4, amended: for checksum strings of equal length (as artifact
checksums always are), swapping the order changes the string being
hashed - `a ++ b ≠ b ++ a` - and each order's version is the digest of
its own concatenation, so the versions differ whenever SHA-256
distinguishes the two distinct inputs. -/
theorem keypair_swap_changes_hash_input (a b : String)
    (hlen : a.length = b.length) (hne : a ≠ b) :
    a ++ b ≠ b ++ a
    ∧ _get_keypair_checksum a b = _hash_string (a ++ b)
    ∧ _get_keypair_checksum b a = _hash_string (b ++ a) := by
  refine ⟨string_append_swap_ne a b hlen hne, ?_, ?_⟩
  · unfold _get_keypair_checksum _hash_list
    rw [string_join_pair]
  · unfold _get_keypair_checksum _hash_list
    rw [string_join_pair]

/-- Claim C4, witness: the amended statement applied at `ab`, `cd`. -/
theorem keypair_swap_changes_hash_input_witness :
    hex_ab ++ hex_cd ≠ hex_cd ++ hex_ab
    ∧ _get_keypair_checksum hex_ab hex_cd = _hash_string (hex_ab ++ hex_cd)
    ∧ _get_keypair_checksum hex_cd hex_ab = _hash_string (hex_cd ++ hex_ab) :=
  keypair_swap_changes_hash_input hex_ab hex_cd (by decide) (by decide)

/-- Claim C5: uploading content tagged with the checksum of its own bytes
and downloading it back with that checksum succeeds and returns the same
bytes; and any download whose received bytes hash to a value different
from the expected checksum fails with the integrity-mismatch error. -/
theorem upload_download_round_trip :
    (∀ (store : Store) (key dest : String) (content : List Nat),
        _download_s3_object_to_path
            (store_update store key
              (_upload_s3_object_to_path (_hash_file content) content))
            key (_hash_file content) dest
          = Except.ok content)
    ∧ (∀ (store : Store) (key expected dest : String) (obj : S3Object),
        store key = some obj →
        _hash_file obj.content ≠ expected →
        _download_s3_object_to_path store key expected dest
          = Except.error Err.integrityMismatch) := by
  constructor
  · intro store key dest content
    unfold _download_s3_object_to_path store_update _upload_s3_object_to_path
    simp
  · intro store key expected dest obj hst hne
    unfold _download_s3_object_to_path
    rw [hst]
    have hb : (expected == _hash_file obj.content) = false :=
      beq_eq_false_iff_ne.mpr (Ne.symm hne)
    simp [hb]

/-- Claim C5, witness: the round trip applied to concrete content in an
empty bucket, and the mismatch case applied to a corrupted object. -/
theorem upload_download_round_trip_witness :
    _download_s3_object_to_path
        (store_update empty_store c5_key
          (_upload_s3_object_to_path (_hash_file c5_content) c5_content))
        c5_key (_hash_file c5_content) c5_dest = Except.ok c5_content
    ∧ _download_s3_object_to_path c5_bad_store c5_key
        (_hash_file c5_content) c5_dest
        = Except.error Err.integrityMismatch :=
  ⟨upload_download_round_trip.1 empty_store c5_key c5_dest c5_content,
   upload_download_round_trip.2 c5_bad_store c5_key (_hash_file c5_content)
     c5_dest c5_bad_obj (by decide) (by decide)⟩

/-- Claim C9: common.py's `hash_list` is a constant function - its helper
hashes the fixed byte string produced by `str.encode('utf-8')` instead
of its argument - and therefore does not compute the digest of the
concatenation of its inputs, which concourse.py's `_hash_string` of the
join would be. -/
theorem hash_list_constant :
    (∀ xs ys : List String, CommonPy.hash_list xs = CommonPy.hash_list ys)
    ∧ CommonPy.hash_list [] ≠ Concourse._hash_string (String.join []) := by
  constructor
  · intro xs ys
    rfl
  · decide

/-- Eliminating a successful bundle transfer: both checksums were fetched,
both artifacts downloaded and verified against them, and the event list
is exactly the certificate download followed by the key download. -/
theorem download_keypair_ok_elim {store : Store} {ck kk cp kp : String}
    {cb kb : List Nat} {tr : List Event}
    (h : download_keypair store ck kk cp kp = (Except.ok (cb, kb), tr)) :
    ∃ c k, _get_s3_object_checksum store ck = Except.ok c
      ∧ _get_s3_object_checksum store kk = Except.ok k
      ∧ _download_s3_object_to_path store ck c cp = Except.ok cb
      ∧ _download_s3_object_to_path store kk k kp = Except.ok kb
      ∧ tr = [Event.download ck c cp, Event.download kk k kp] := by
  unfold download_keypair at h
  split at h
  · simp at h
  next c hfc =>
    split at h
    · simp at h
    next k hfk =>
      split at h
      · simp at h
      next cbs hdc =>
        split at h
        · simp at h
        next kbs hdk =>
          simp at h
          refine ⟨c, k, hfc, hfk, ?_, ?_, ?_⟩
          · rw [hdc, h.1.1]
          · rw [hdk, h.1.2]
          · exact h.2.symm

/-- Every event of a bundle transfer is a download: neither a mutation of
remote state nor a renewal invocation. -/
theorem download_keypair_events (store : Store) (ck kk cp kp : String) :
    ∀ e ∈ (download_keypair store ck kk cp kp).2,
      is_mutation e = false ∧ is_renew_event e = false := by
  intro ev hev
  unfold download_keypair at hev
  split at hev
  · simp at hev
  · split at hev
    · simp at hev
    · split at hev
      · simp at hev
        subst hev
        exact ⟨rfl, rfl⟩
      · split at hev
        · simp at hev
          rcases hev with h | h <;> subst h <;> exact ⟨rfl, rfl⟩
        · simp at hev
          rcases hev with h | h <;> subst h <;> exact ⟨rfl, rfl⟩

/-- A renew action is not a create action. -/
theorem action_renew_not_create (p : Payload)
    (h : _action_is_renew p = true) : _action_is_create p = false := by
  rcases p with ⟨src, ver, pars⟩
  rcases pars with _ | ps
  · simp [_action_is_renew] at h
  · rcases hact : ps.action with _ | a
    · simp [_action_is_renew, hact] at h
    · simp [_action_is_renew, hact] at h
      subst h
      simp [_action_is_create, hact]
      decide

/-- Claim C3: whenever the requested version checksum differs from the
bundle checksum recomputed from the two artifacts' stored checksums, the
in operation of every level fails with the version-unavailable error and
performs no transfer at all (the event list is empty, so nothing was
fetched and no file was written). -/
theorem in_version_mismatch_no_downloads (env : Env) :
    (∀ c k,
        _get_s3_object_checksum env.store (root_cert_key env) = Except.ok c →
        _get_s3_object_checksum env.store (root_key_key env) = Except.ok k →
        env.payload.version.checksum ≠ _get_keypair_checksum c k →
        root_ca_in env = (Except.error Err.versionUnavailable, []))
    ∧ (∀ c k,
        _get_s3_object_checksum env.store (inter_cert_key env) = Except.ok c →
        _get_s3_object_checksum env.store (inter_key_key env) = Except.ok k →
        env.payload.version.checksum ≠ _get_keypair_checksum c k →
        intermediate_ca_in env = (Except.error Err.versionUnavailable, []))
    ∧ (∀ c k,
        _get_s3_object_checksum env.store (leaf_cert_key env) = Except.ok c →
        _get_s3_object_checksum env.store (leaf_key_key env) = Except.ok k →
        env.payload.version.checksum ≠ _get_keypair_checksum c k →
        leaf_in env = (Except.error Err.versionUnavailable, [])) := by
  refine ⟨?_, ?_, ?_⟩
  · intro c k hc hk hne
    unfold root_ca_in
    rw [hc, hk]
    have hb : _checksum_exists env.payload (_get_keypair_checksum c k) = false := by
      unfold _checksum_exists
      exact beq_eq_false_iff_ne.mpr hne
    simp [hb]
  · intro c k hc hk hne
    unfold intermediate_ca_in
    rw [hc, hk]
    have hb : _checksum_exists env.payload (_get_keypair_checksum c k) = false := by
      unfold _checksum_exists
      exact beq_eq_false_iff_ne.mpr hne
    simp [hb]
  · intro c k hc hk hne
    unfold leaf_in
    rw [hc, hk]
    have hb : _checksum_exists env.payload (_get_keypair_checksum c k) = false := by
      unfold _checksum_exists
      exact beq_eq_false_iff_ne.mpr hne
    simp [hb]

/-- Claim C3, witness: the three level conclusions at a request for an
unavailable version against the sample bucket. -/
theorem in_version_mismatch_no_downloads_witness :
    root_ca_in c3_env = (Except.error Err.versionUnavailable, [])
    ∧ intermediate_ca_in c3_env = (Except.error Err.versionUnavailable, [])
    ∧ leaf_in c3_env = (Except.error Err.versionUnavailable, []) :=
  ⟨(in_version_mismatch_no_downloads c3_env).1
     (_hash_file [1]) (_hash_file [2]) (by decide) (by decide) (by decide),
   (in_version_mismatch_no_downloads c3_env).2.1
     (_hash_file [3]) (_hash_file [4]) (by decide) (by decide) (by decide),
   (in_version_mismatch_no_downloads c3_env).2.2
     (_hash_file [5]) (_hash_file [6]) (by decide) (by decide) (by decide)⟩

/-- Claim C10: an out request whose params omit the action key entirely,
or that has no params object at all, is treated as a create: the create
predicate holds, the renew predicate does not, and the run's first event
is the create invocation. -/
theorem missing_action_defaults_to_create (env : Env)
    (h : env.payload.params = none
         ∨ ∃ ps, env.payload.params = some ps ∧ ps.action = none) :
    _action_is_create env.payload = true
    ∧ _action_is_renew env.payload = false
    ∧ (root_ca_out env).2.head? = some (Event.create CALevel.root) := by
  have hc : _action_is_create env.payload = true := by
    rcases h with h | ⟨ps, hps, ha⟩
    · simp [_action_is_create, h]
    · simp [_action_is_create, hps, ha]
  have hr : _action_is_renew env.payload = false := by
    rcases h with h | ⟨ps, hps, ha⟩
    · simp [_action_is_renew, h]
    · simp [_action_is_renew, hps, ha]
  refine ⟨hc, hr, ?_⟩
  unfold root_ca_out
  simp [hc, root_ca_out_finish]

/-- Claim C10, witness: the conclusion at the sample request carrying no
params object. -/
theorem missing_action_defaults_to_create_witness :
    _action_is_create c10_env.payload = true
    ∧ _action_is_renew c10_env.payload = false
    ∧ (root_ca_out c10_env).2.head? = some (Event.create CALevel.root) :=
  missing_action_defaults_to_create c10_env (Or.inl rfl)

/-- `intermediate_ca_out` never invokes a renewal: its renew branch
evaluates `lib.cfssl.renew_intermediate_certificate`, which does not
exist, after downloading the existing bundle, so no renewal event can
appear in any trace. -/
theorem no_renew_in_intermediate_out (env : Env) :
    ∀ e ∈ (intermediate_ca_out env).2, is_renew_event e = false := by
  intro ev hev
  unfold intermediate_ca_out at hev
  split at hev
  next e tr heq =>
    exact (download_keypair_events env.store (root_cert_key env)
      (root_key_key env) (root_cert_path env) (root_key_path env) ev
      (by rw [heq]; exact hev)).2
  next bundle preTr heq =>
    split at hev
    · simp [intermediate_ca_out_finish] at hev
      rcases hev with h | h | h | h
      · exact (download_keypair_events env.store (root_cert_key env)
          (root_key_key env) (root_cert_path env) (root_key_path env) ev
          (by rw [heq]; exact h)).2
      · rw [h]
        rfl
      · rw [h]
        rfl
      · rw [h]
        rfl
    · split at hev
      · split at hev
        next e2 tr2 heq2 =>
          simp at hev
          rcases hev with h | h
          · exact (download_keypair_events env.store (root_cert_key env)
              (root_key_key env) (root_cert_path env) (root_key_path env) ev
              (by rw [heq]; exact h)).2
          · exact (download_keypair_events env.store (inter_cert_key env)
              (inter_key_key env) (inter_cert_path env) (inter_key_path env) ev
              (by rw [heq2]; exact h)).2
        next b2 tr2 heq2 =>
          simp at hev
          rcases hev with h | h
          · exact (download_keypair_events env.store (root_cert_key env)
              (root_key_key env) (root_cert_path env) (root_key_path env) ev
              (by rw [heq]; exact h)).2
          · exact (download_keypair_events env.store (inter_cert_key env)
              (inter_key_key env) (inter_cert_path env) (inter_key_path env) ev
              (by rw [heq2]; exact h)).2
      · exact (download_keypair_events env.store (root_cert_key env)
          (root_key_key env) (root_cert_path env) (root_key_path env) ev
          (by rw [heq]; exact hev)).2

/-- `leaf_out` never invokes a renewal: its renew branch evaluates
`lib.cfssl.renew_leaf_certificate`, which does not exist, after
downloading the existing bundle, so no renewal event can appear in any
trace. -/
theorem no_renew_in_leaf_out (env : Env) :
    ∀ e ∈ (leaf_out env).2, is_renew_event e = false := by
  intro ev hev
  unfold leaf_out at hev
  split at hev
  next e tr heq =>
    exact (download_keypair_events env.store (inter_cert_key env)
      (inter_key_key env) (inter_cert_path env) (inter_key_path env) ev
      (by rw [heq]; exact hev)).2
  next bundle preTr heq =>
    split at hev
    · simp [leaf_out_finish] at hev
      rcases hev with h | h | h | h
      · exact (download_keypair_events env.store (inter_cert_key env)
          (inter_key_key env) (inter_cert_path env) (inter_key_path env) ev
          (by rw [heq]; exact h)).2
      · rw [h]
        rfl
      · rw [h]
        rfl
      · rw [h]
        rfl
    · split at hev
      · split at hev
        next e2 tr2 heq2 =>
          simp at hev
          rcases hev with h | h
          · exact (download_keypair_events env.store (inter_cert_key env)
              (inter_key_key env) (inter_cert_path env) (inter_key_path env) ev
              (by rw [heq]; exact h)).2
          · exact (download_keypair_events env.store (leaf_cert_key env)
              (leaf_key_key env) (leaf_cert_path env) (leaf_key_path env) ev
              (by rw [heq2]; exact h)).2
        next b2 tr2 heq2 =>
          simp at hev
          rcases hev with h | h
          · exact (download_keypair_events env.store (inter_cert_key env)
              (inter_key_key env) (inter_cert_path env) (inter_key_path env) ev
              (by rw [heq]; exact h)).2
          · exact (download_keypair_events env.store (leaf_cert_key env)
              (leaf_key_key env) (leaf_cert_path env) (leaf_key_path env) ev
              (by rw [heq2]; exact h)).2
      · exact (download_keypair_events env.store (inter_cert_key env)
          (inter_key_key env) (inter_cert_path env) (inter_key_path env) ev
          (by rw [heq]; exact hev)).2

/-- Claim C6: on an out request with action renew, a renewal is invoked
at the root level only after both existing artifacts were fetched,
downloaded and integrity-verified, with the two download events
preceding the renewal event in the trace (so if either download or
verification fails, the renewal is never invoked); at the intermediate
and leaf levels the renewal helper does not exist, so a renewal
invocation never appears in any trace at all. -/
theorem renew_requires_verified_downloads (env : Env)
    (h : _action_is_renew env.payload = true) :
    (Event.renew CALevel.root ∈ (root_ca_out env).2 →
       ∃ c k cb kb rest,
         _get_s3_object_checksum env.store (root_cert_key env) = Except.ok c
         ∧ _get_s3_object_checksum env.store (root_key_key env) = Except.ok k
         ∧ _download_s3_object_to_path env.store (root_cert_key env) c
             (root_cert_path env) = Except.ok cb
         ∧ _download_s3_object_to_path env.store (root_key_key env) k
             (root_key_path env) = Except.ok kb
         ∧ (root_ca_out env).2
             = Event.download (root_cert_key env) c (root_cert_path env)
               :: Event.download (root_key_key env) k (root_key_path env)
               :: Event.renew CALevel.root :: rest)
    ∧ (∀ lvl, Event.renew lvl ∉ (intermediate_ca_out env).2)
    ∧ (∀ lvl, Event.renew lvl ∉ (leaf_out env).2) := by
  have hcf : _action_is_create env.payload = false :=
    action_renew_not_create env.payload h
  refine ⟨?_, ?_, ?_⟩
  · intro hmem
    unfold root_ca_out at hmem ⊢
    rw [hcf, h] at hmem ⊢
    simp only [Bool.false_eq_true, if_false, if_true] at hmem ⊢
    rcases hdk : download_keypair env.store (root_cert_key env)
        (root_key_key env) (root_cert_path env) (root_key_path env)
      with ⟨res, tr⟩
    rw [hdk] at hmem
    cases res with
    | error e =>
      have h2 := (download_keypair_events env.store (root_cert_key env)
        (root_key_key env) (root_cert_path env) (root_key_path env)
        (Event.renew CALevel.root) (by rw [hdk]; exact hmem)).2
      simp [is_renew_event] at h2
    | ok bundle =>
      rcases bundle with ⟨cb, kb⟩
      obtain ⟨c, k, hfc, hfk, hdc, hdke, htr⟩ := download_keypair_ok_elim hdk
      subst htr
      refine ⟨c, k, cb, kb,
        [Event.upload (root_cert_key env)
           (_hash_file env.cfssl.renewed_certificate) (root_cert_path env),
         Event.upload (root_key_key env) (_hash_file kb) (root_key_path env)],
        hfc, hfk, hdc, hdke, ?_⟩
      simp [root_ca_out_finish]
  · intro lvl hmem
    have h2 := (no_renew_in_intermediate_out env (Event.renew lvl) hmem)
    simp [is_renew_event] at h2
  · intro lvl hmem
    have h2 := (no_renew_in_leaf_out env (Event.renew lvl) hmem)
    simp [is_renew_event] at h2

/-- Claim C6, witness: the root conclusion at a renew request against the
sample bucket, where the renewal is reached. -/
theorem renew_requires_verified_downloads_witness :
    ∃ c k cb kb rest,
      _get_s3_object_checksum c6_env.store (root_cert_key c6_env)
          = Except.ok c
      ∧ _get_s3_object_checksum c6_env.store (root_key_key c6_env)
          = Except.ok k
      ∧ _download_s3_object_to_path c6_env.store (root_cert_key c6_env) c
          (root_cert_path c6_env) = Except.ok cb
      ∧ _download_s3_object_to_path c6_env.store (root_key_key c6_env) k
          (root_key_path c6_env) = Except.ok kb
      ∧ (root_ca_out c6_env).2
          = Event.download (root_cert_key c6_env) c (root_cert_path c6_env)
            :: Event.download (root_key_key c6_env) k (root_key_path c6_env)
            :: Event.renew CALevel.root :: rest :=
  (renew_requires_verified_downloads c6_env (by decide)).1 (by decide)

/-- Claim C7: on an out request whose params carry an action that is
neither create nor renew, the root out operation fails with the
invalid-action error having performed nothing at all; the intermediate
and leaf out operations fail as well, never perform a create, a renewal
or an upload, and whenever their preliminary parent-bundle transfer
succeeds the error is precisely the invalid-action one. -/
theorem invalid_action_fails_without_mutation (env : Env) (ps : Params)
    (a : String) (hps : env.payload.params = some ps)
    (ha : ps.action = some a) (hc : a ≠ action_create)
    (hr : a ≠ action_renew) :
    root_ca_out env = (Except.error Err.invalidAction, [])
    ∧ is_error (intermediate_ca_out env).1 = true
    ∧ (∀ e ∈ (intermediate_ca_out env).2, is_mutation e = false)
    ∧ (keypair_ok (download_keypair env.store (root_cert_key env)
          (root_key_key env) (root_cert_path env) (root_key_path env)) = true →
        (intermediate_ca_out env).1 = Except.error Err.invalidAction)
    ∧ is_error (leaf_out env).1 = true
    ∧ (∀ e ∈ (leaf_out env).2, is_mutation e = false)
    ∧ (keypair_ok (download_keypair env.store (inter_cert_key env)
          (inter_key_key env) (inter_cert_path env) (inter_key_path env)) = true →
        (leaf_out env).1 = Except.error Err.invalidAction) := by
  have hbc : _action_is_create env.payload = false := by
    simp only [_action_is_create, hps, ha]
    exact beq_eq_false_iff_ne.mpr hc
  have hbr : _action_is_renew env.payload = false := by
    simp only [_action_is_renew, hps, ha]
    exact beq_eq_false_iff_ne.mpr hr
  refine ⟨?_, ?_, ?_, ?_, ?_, ?_, ?_⟩
  · unfold root_ca_out
    rw [hbc, hbr]
    simp
  · rcases hdk : download_keypair env.store (root_cert_key env)
        (root_key_key env) (root_cert_path env) (root_key_path env)
      with ⟨res, tr⟩
    unfold intermediate_ca_out
    rw [hdk]
    cases res with
    | error e => rfl
    | ok b =>
      rw [hbc, hbr]
      simp [is_error]
  · intro ev hev
    unfold intermediate_ca_out at hev
    split at hev
    next e tr heq =>
      exact (download_keypair_events env.store (root_cert_key env)
        (root_key_key env) (root_cert_path env) (root_key_path env) ev
        (by rw [heq]; exact hev)).1
    next bundle preTr heq =>
      rw [hbc, hbr] at hev
      simp only [Bool.false_eq_true, if_false] at hev
      exact (download_keypair_events env.store (root_cert_key env)
        (root_key_key env) (root_cert_path env) (root_key_path env) ev
        (by rw [heq]; exact hev)).1
  · intro hko
    rcases hdk : download_keypair env.store (root_cert_key env)
        (root_key_key env) (root_cert_path env) (root_key_path env)
      with ⟨res, tr⟩
    rw [hdk] at hko
    unfold intermediate_ca_out
    rw [hdk]
    cases res with
    | error e => simp [keypair_ok] at hko
    | ok b =>
      rw [hbc, hbr]
      simp
  · rcases hdk : download_keypair env.store (inter_cert_key env)
        (inter_key_key env) (inter_cert_path env) (inter_key_path env)
      with ⟨res, tr⟩
    unfold leaf_out
    rw [hdk]
    cases res with
    | error e => rfl
    | ok b =>
      rw [hbc, hbr]
      simp [is_error]
  · intro ev hev
    unfold leaf_out at hev
    split at hev
    next e tr heq =>
      exact (download_keypair_events env.store (inter_cert_key env)
        (inter_key_key env) (inter_cert_path env) (inter_key_path env) ev
        (by rw [heq]; exact hev)).1
    next bundle preTr heq =>
      rw [hbc, hbr] at hev
      simp only [Bool.false_eq_true, if_false] at hev
      exact (download_keypair_events env.store (inter_cert_key env)
        (inter_key_key env) (inter_cert_path env) (inter_key_path env) ev
        (by rw [heq]; exact hev)).1
  · intro hko
    rcases hdk : download_keypair env.store (inter_cert_key env)
        (inter_key_key env) (inter_cert_path env) (inter_key_path env)
      with ⟨res, tr⟩
    rw [hdk] at hko
    unfold leaf_out
    rw [hdk]
    cases res with
    | error e => simp [keypair_ok] at hko
    | ok b =>
      rw [hbc, hbr]
      simp

/-- Claim C7, witness: the conclusion at an out request with action
`destroy` against the sample bucket (where the parent transfers succeed,
so the conditional conclusions bite). -/
theorem invalid_action_fails_without_mutation_witness :
    root_ca_out c7_env = (Except.error Err.invalidAction, [])
    ∧ is_error (intermediate_ca_out c7_env).1 = true
    ∧ (∀ e ∈ (intermediate_ca_out c7_env).2, is_mutation e = false)
    ∧ (keypair_ok (download_keypair c7_env.store (root_cert_key c7_env)
          (root_key_key c7_env) (root_cert_path c7_env)
          (root_key_path c7_env)) = true →
        (intermediate_ca_out c7_env).1 = Except.error Err.invalidAction)
    ∧ is_error (leaf_out c7_env).1 = true
    ∧ (∀ e ∈ (leaf_out c7_env).2, is_mutation e = false)
    ∧ (keypair_ok (download_keypair c7_env.store (inter_cert_key c7_env)
          (inter_key_key c7_env) (inter_cert_path c7_env)
          (inter_key_path c7_env)) = true →
        (leaf_out c7_env).1 = Except.error Err.invalidAction) :=
  invalid_action_fails_without_mutation c7_env c7_params c7_action rfl rfl
    (by decide) (by decide)

/-- Claim C2, code evaluation at the failing input: a leaf in request
with a matching version whose params decline the leaf files and set only
`save_intermediate_ca_certificate`, against a bucket that stores every
artifact.  The single transfer the run performs downloads the object
keyed by the ROOT certificate file name and writes it to the root
certificate file name in the destination directory - not the
intermediate ones the flag names - while the response metadata
nevertheless reports the intermediate file name, carrying the root
object's checksum. -/
theorem leaf_in_intermediate_branch_downloads_root_object :
    (leaf_in c2_env).2
      = [Event.download ROOT_CA_CERTIFICATE_FILE_NAME (_hash_file [1])
           (_get_repository_file_path demo_dir ROOT_CA_CERTIFICATE_FILE_NAME)]
    ∧ ROOT_CA_CERTIFICATE_FILE_NAME ≠ INTERMEDIATE_CA_CERTIFICATE_FILE_NAME
    ∧ (leaf_in c2_env).1
      = Except.ok
          { version := { checksum :=
              _get_keypair_checksum (_hash_file [5]) (_hash_file [6]) },
            metadata :=
              [{ name := intermediate_ca_certificate_role ++ suffix_file_name,
                 value := INTERMEDIATE_CA_CERTIFICATE_FILE_NAME },
               { name := intermediate_ca_certificate_role ++ suffix_checksum,
                 value := _hash_file [1] }] } := by
  refine ⟨by decide, by decide, by decide⟩

/-- The names of the host entries: the role, the `_host_` tag and the
consecutive indices starting from the given one. -/
theorem hosts_metadata_from_names (fd : String) (hosts : List String) :
    ∀ i : Nat,
      (_create_hosts_metadata_from fd i hosts).map MetaEntry.name
        = (List.range' i hosts.length).map
            (fun j => fd ++ suffix_host ++ Nat.repr j) := by
  induction hosts with
  | nil =>
    intro i
    simp [_create_hosts_metadata_from]
  | cons h t ih =>
    intro i
    rw [show (h :: t).length = t.length + 1 from rfl,
        List.range'_succ i t.length 1]
    simp [_create_hosts_metadata_from, ih (i + 1)]

/-- The values of the host entries are exactly the hosts, in input
order. -/
theorem hosts_metadata_from_values (fd : String) (hosts : List String) :
    ∀ i : Nat,
      (_create_hosts_metadata_from fd i hosts).map MetaEntry.value = hosts := by
  induction hosts with
  | nil =>
    intro i
    simp [_create_hosts_metadata_from]
  | cons h t ih =>
    intro i
    simp [_create_hosts_metadata_from, ih (i + 1)]

/-- Claim C8: the leaf out metadata is emitted in the fixed order - leaf
certificate file name and checksum, leaf private key file name and
checksum, common name, one entry per host, expiration - with the host
entries named by the role and zero-based consecutive indices, the host
values preserving input order; on the sample hosts the two host entries
are `leaf_certificate_host_0 = a.example.com` then
`leaf_certificate_host_1 = b.example.com`, in positions five and six,
after the file-name and checksum entries. -/
theorem leaf_metadata_order (leaf_name certCk keyCk cn tue : String)
    (hosts : List String) :
    (leaf_out_metadata leaf_name certCk keyCk cn hosts tue).map MetaEntry.name
      = [leaf_certificate_role ++ suffix_file_name,
         leaf_certificate_role ++ suffix_checksum,
         leaf_private_key_role ++ suffix_file_name,
         leaf_private_key_role ++ suffix_checksum,
         leaf_certificate_role ++ suffix_common_name]
        ++ (List.range hosts.length).map
            (fun i => leaf_certificate_role ++ suffix_host ++ Nat.repr i)
        ++ [leaf_certificate_role ++ suffix_time_until_expiration]
    ∧ (leaf_out_metadata leaf_name certCk keyCk cn hosts tue).map
          MetaEntry.value
      = [leaf_certificate_file_name leaf_name, certCk,
         leaf_private_key_file_name leaf_name, keyCk, cn]
        ++ hosts ++ [tue]
    ∧ ((leaf_out_metadata leaf_name certCk keyCk cn demo_hosts tue).drop 5).take 2
      = [{ name := leaf_certificate_role ++ suffix_host ++ Nat.repr 0,
           value := host_a },
         { name := leaf_certificate_role ++ suffix_host ++ Nat.repr 1,
           value := host_b }] := by
  refine ⟨?_, ?_, ?_⟩
  · cases hosts with
    | nil =>
      simp [leaf_out_metadata, _create_file_metadata,
        _create_common_name_metadata, _create_expiration_metadata]
    | cons h t =>
      simp only [leaf_out_metadata, _create_hosts_metadata,
        List.isEmpty_cons, if_false, List.map_append,
        List.range_eq_range']
      simp [_create_file_metadata, _create_common_name_metadata,
        _create_expiration_metadata]
      exact hosts_metadata_from_names leaf_certificate_role (h :: t) 0
  · cases hosts with
    | nil =>
      simp [leaf_out_metadata, _create_file_metadata,
        _create_common_name_metadata, _create_expiration_metadata]
    | cons h t =>
      simp only [leaf_out_metadata, _create_hosts_metadata,
        List.isEmpty_cons, if_false, List.map_append]
      simp [_create_file_metadata, _create_common_name_metadata,
        _create_expiration_metadata]
      rw [hosts_metadata_from_values leaf_certificate_role (h :: t) 0]
      simp
  · simp [leaf_out_metadata, _create_file_metadata,
      _create_common_name_metadata, _create_expiration_metadata,
      _create_hosts_metadata, _create_hosts_metadata_from, demo_hosts]
